import Mathlib

/-!
Verification of `internal/resources/kubeadm_phases.go` (kamaji).

The file embeds the kubeadm-phase reconciliation slice shallowly:

* Go structs become Lean structures; nil-able pointers become `Option`.
* A Go function that can panic is embedded with an `Option` result, `none`
  standing for the panic (the only panics reachable in this slice are the
  out-of-range array index in `kubeadmPhase.String` and the out-of-range
  slice write in `bootstrapTokensEnrichment`).
* External collaborators that live outside the observed file
  (`utils.RandomString`, `kubeadm.UploadKubeadmConfig`,
  `kubeadm.UploadKubeletConfig`, `kubeadm.BootstrapToken`, and the
  `TenantControlPlane` status block) are abstracted as parameters or, where
  the spec fixes their shape, modelled from the spec.
-/

namespace Kamaji

/-- Embedding of `bootstraptokenv1.BootstrapTokenString`: the credential record
with a public identifier and a private secret.  The Go zero value has both
fields empty. -/
structure BootstrapTokenString where
  id : String
  secret : String
  deriving Repr, DecidableEq

/-- Embedding of `bootstraptokenv1.BootstrapToken` restricted to the fields the
observed code touches: the nil-able pointer `Token *BootstrapTokenString`
becomes an `Option`.  The remaining fields (TTL, usages, groups, description)
are never read or written by this slice, so omitting them preserves every
claim about it. -/
structure BootstrapToken where
  token : Option BootstrapTokenString
  deriving Repr, DecidableEq

/-- Modelled from the spec: `utils.RandomString` (its code is not under `src/`)
returns a string of the requested number of random alphanumeric characters.
The embedding abstracts the generator as a parameter `rnd : Nat → String`;
`aaRand` is a deterministic stand-in used to evaluate the definitions at
concrete inputs. -/
def aaRand (n : Nat) : String :=
  String.mk (List.replicate n 'a')

/-- Embedding of `enrichBootstrapToken`:

* if the `Token` pointer is nil, allocate a fresh zero record;
* if the identifier is empty, set it to `rnd 6 ++ "." ++ rnd 16`
  (Go: `fmt.Sprintf("%s.%s", utils.RandomString(6), utils.RandomString(16))`).

The secret field is never touched. -/
def enrichBootstrapToken (rnd : Nat → String) (bootstrapToken : BootstrapToken) :
    BootstrapToken :=
  let t : BootstrapTokenString :=
    match bootstrapToken.token with
    | none => { id := "", secret := "" }
    | some t => t
  if t.id = "" then
    { token := some { t with id := rnd 6 ++ "." ++ rnd 16 } }
  else
    { token := some t }

/-- Embedding of `bootstrapTokensEnrichment`: copy slot zero of the list when it
exists (else the zero value of the local variable), enrich the copy, and write
it back with `bootstrapTokens[0] = bootstrapToken`.  On the empty list the
write indexes slot zero of an empty slice and panics, embedded as `none`. -/
def bootstrapTokensEnrichment (rnd : Nat → String)
    (bootstrapTokens : List BootstrapToken) : Option (List BootstrapToken) :=
  let bootstrapToken : BootstrapToken :=
    match bootstrapTokens with
    | [] => { token := none }
    | t :: _ => t
  let enriched := enrichBootstrapToken rnd bootstrapToken
  match bootstrapTokens with
  | [] => none
  | _ :: rest => some (enriched :: rest)

/-- C1: on the empty candidate list the enrichment panics (the slot-zero write
indexes an empty slice), so it neither completes without error nor produces a
token; on every non-empty list the enriched record is written back into slot
zero. -/
theorem bootstrapTokensEnrichment_empty_vs_cons :
    (∀ rnd : Nat → String, bootstrapTokensEnrichment rnd [] = none) ∧
    (∀ (rnd : Nat → String) (t : BootstrapToken) (rest : List BootstrapToken),
      bootstrapTokensEnrichment rnd (t :: rest) =
        some (enrichBootstrapToken rnd t :: rest)) := by
  constructor
  · intro rnd
    rfl
  · intro rnd t rest
    rfl

/-- C6: enrichment never regenerates a populated identifier — a token whose
identifier is non-empty is returned unchanged, and a list whose slot-zero
token is already populated is returned identical. -/
theorem tokenEnrichment_idempotent :
    (∀ (rnd : Nat → String) (bt : BootstrapToken) (ts : BootstrapTokenString),
      bt.token = some ts → ts.id ≠ "" → enrichBootstrapToken rnd bt = bt) ∧
    (∀ (rnd : Nat → String) (t : BootstrapToken) (rest : List BootstrapToken)
      (ts : BootstrapTokenString), t.token = some ts → ts.id ≠ "" →
      bootstrapTokensEnrichment rnd (t :: rest) = some (t :: rest)) := by
  have head : ∀ (rnd : Nat → String) (bt : BootstrapToken)
      (ts : BootstrapTokenString),
      bt.token = some ts → ts.id ≠ "" → enrichBootstrapToken rnd bt = bt := by
    intro rnd bt ts h hid
    cases bt with
    | mk tok =>
      cases h
      simp [enrichBootstrapToken, hid]
  refine ⟨head, ?_⟩
  intro rnd t rest ts h hid
  simp [bootstrapTokensEnrichment, head rnd t ts h hid]

/-- C7 counterexample: enriching the zero-value token yields a record whose
secret field is still empty — the generated value (public id and secret
portion joined by a dot) is stored entirely in the identifier field, and the
secret field is never written. -/
theorem enrich_secret_stays_empty_cex :
    enrichBootstrapToken aaRand { token := none } =
      { token := some { id := "aaaaaa.aaaaaaaaaaaaaaaa", secret := "" } } ∧
    (∃ ts : BootstrapTokenString,
      (enrichBootstrapToken aaRand { token := none }).token = some ts ∧
        ts.secret = "") := by
  constructor
  · rfl
  · exact ⟨_, rfl, rfl⟩

/-- C7 (amended): after enrichment the token record exists and its identifier
is non-empty (a generated identifier always contains the dot separator); the
secret field is never modified (the nil pointer case starts from the empty
secret of the zero record); a token whose identifier is already non-empty is
returned entirely unchanged. -/
theorem enrichBootstrapToken_fields :
    ∀ (rnd : Nat → String) (bt : BootstrapToken),
      (∃ ts : BootstrapTokenString,
        (enrichBootstrapToken rnd bt).token = some ts ∧ ts.id ≠ "" ∧
          ts.secret = (match bt.token with
            | none => ""
            | some t => t.secret)) ∧
      (∀ ts : BootstrapTokenString, bt.token = some ts → ts.id ≠ "" →
        enrichBootstrapToken rnd bt = bt) := by
  intro rnd bt
  constructor
  · cases htok : bt.token with
    | none =>
      refine ⟨{ id := rnd 6 ++ "." ++ rnd 16, secret := "" }, ?_, ?_, ?_⟩
      · simp [enrichBootstrapToken, htok]
      · intro h
        have hlen := congrArg String.length h
        simp [String.length_append] at hlen
        exact absurd hlen.1.2 (by decide)
      · simp
    | some t =>
      by_cases hid : t.id = ""
      · refine ⟨{ t with id := rnd 6 ++ "." ++ rnd 16 }, ?_, ?_, ?_⟩
        · simp [enrichBootstrapToken, htok, hid]
        · intro h
          have hlen := congrArg String.length h
          simp [String.length_append] at hlen
          exact absurd hlen.1.2 (by decide)
        · simp
      · refine ⟨t, ?_, hid, ?_⟩
        · simp [enrichBootstrapToken, htok, hid]
        · simp
  · intro ts h hid
    cases bt with
    | mk tok =>
      cases h
      simp [enrichBootstrapToken, hid]

/-- The declared enumeration: `PhaseUploadConfigKubeadm kubeadmPhase = iota`,
then `PhaseUploadConfigKubelet`, `PhaseBootstrapToken`.  `kubeadmPhase` is a Go
`int`, embedded as `Int`. -/
def PhaseUploadConfigKubeadm : Int := 0

/-- Second declared enumeration value. -/
def PhaseUploadConfigKubelet : Int := 1

/-- Third (last) declared enumeration value. -/
def PhaseBootstrapToken : Int := 2

/-- The display-name table of `kubeadmPhase.String`: a five-entry array literal
indexed by the phase value. -/
def kubeadmPhaseNames : List String :=
  ["PhaseUploadConfigKubeadm", "PhaseUploadConfigKubelet", "PhaseAddonCoreDNS",
    "PhaseAddonKubeProxy", "PhaseBootstrapToken"]

/-- Embedding of `kubeadmPhase.String`: index the five-entry array with the
phase value; out of the range 0..4 the index panics, embedded as `none`. -/
def kubeadmPhaseString (d : Int) : Option String :=
  if 0 ≤ d ∧ d < 5 then some (kubeadmPhaseNames.getD d.toNat "") else none

/-- What a `%s` verb prints for a `kubeadmPhase` argument: Go `fmt` calls the
value's `String` method, recovers a panic raised inside it, and prints the
panic placeholder instead.  In range the display name is printed; out of range
`String` panics with an index-out-of-range runtime error and `fmt` prints the
placeholder.  The runtime formats the two out-of-range directions differently
(`boundsErrorFmts` against `boundsNegErrorFmts`): a non-negative index panics
with "index out of range [d] with length 5", a negative one with
"index out of range [d]" and no length suffix. -/
def fmtStringer (d : Int) : String :=
  match kubeadmPhaseString d with
  | some s => s
  | none =>
      if d < 0 then
        "%!s(PANIC=String method: runtime error: index out of range [" ++
          toString d ++ "])"
      else
        "%!s(PANIC=String method: runtime error: index out of range [" ++
          toString d ++ "] with length 5)"

/-- Embedding of the `KubeadmPhase` struct.  The `Client` handle is opaque to
every operation modelled here (only returned by `GetClient`) and is omitted;
`checksum` is the unexported fingerprint field set by
`SetKubeadmConfigChecksum`. -/
structure KubeadmPhase where
  name : String
  phase : Int
  checksum : String
  deriving Repr, DecidableEq

/-- Modelled from the spec: `kamajiv1alpha1.KubeadmPhaseStatus` (declared
outside `src/`) is the persisted per-phase status record holding the last
applied fingerprint; the spec calls it PersistedPhaseStatus. -/
structure KubeadmPhaseStatus where
  checksum : String
  deriving Repr, DecidableEq

/-- Modelled from the spec: `SetChecksum` overwrites the record's stored
fingerprint unconditionally. -/
def KubeadmPhaseStatus.SetChecksum (_s : KubeadmPhaseStatus) (c : String) :
    KubeadmPhaseStatus :=
  { checksum := c }

/-- Modelled from the spec: the owning resource's status block holds one
persisted record per declared phase
(`TenantControlPlane.Status.KubeadmPhase.{UploadConfigKubeadm,
UploadConfigKubelet, BootstrapToken}`). -/
structure KubeadmPhasesStatus where
  uploadConfigKubeadm : KubeadmPhaseStatus
  uploadConfigKubelet : KubeadmPhaseStatus
  bootstrapToken : KubeadmPhaseStatus
  deriving Repr, DecidableEq

/-- Modelled from the spec: the owning resource's status sub-structure. -/
structure TenantControlPlaneStatus where
  kubeadmPhase : KubeadmPhasesStatus
  deriving Repr, DecidableEq

/-- Modelled from the spec: the owning resource (`TenantControlPlane`),
restricted to the status block this slice reads and writes. -/
structure TenantControlPlane where
  status : TenantControlPlaneStatus
  deriving Repr, DecidableEq

/-- A Go pointer into one of the three per-phase status records of an owning
resource: `GetStatus` returns such a pointer, `isStatusEqual` reads through
it and `UpdateTenantControlPlaneStatus` writes through it. -/
inductive StatusPtr where
  | uploadConfigKubeadm
  | uploadConfigKubelet
  | bootstrapToken
  deriving Repr, DecidableEq

/-- Dereference a status pointer for reading. -/
def statusRead (tcp : TenantControlPlane) : StatusPtr → KubeadmPhaseStatus
  | .uploadConfigKubeadm => tcp.status.kubeadmPhase.uploadConfigKubeadm
  | .uploadConfigKubelet => tcp.status.kubeadmPhase.uploadConfigKubelet
  | .bootstrapToken => tcp.status.kubeadmPhase.bootstrapToken

/-- Write a record through a status pointer (the effect of a mutation through
the pointer `GetStatus` returned). -/
def statusWrite (tcp : TenantControlPlane) (p : StatusPtr)
    (s : KubeadmPhaseStatus) : TenantControlPlane :=
  match p with
  | .uploadConfigKubeadm =>
      { status := { kubeadmPhase :=
          { tcp.status.kubeadmPhase with uploadConfigKubeadm := s } } }
  | .uploadConfigKubelet =>
      { status := { kubeadmPhase :=
          { tcp.status.kubeadmPhase with uploadConfigKubelet := s } } }
  | .bootstrapToken =>
      { status := { kubeadmPhase :=
          { tcp.status.kubeadmPhase with bootstrapToken := s } } }

/-- Embedding of `KubeadmPhase.GetStatus`: map the phase to a pointer into the
owning resource's status block; outside the declared enumeration return the
error `fmt.Errorf("%s is not a right kubeadm phase", r.Phase)` (the `%s` verb
recovers the `String` panic for values outside 0..4). -/
def GetStatus (r : KubeadmPhase) (_tcp : TenantControlPlane) :
    Except String StatusPtr :=
  if r.phase = PhaseUploadConfigKubeadm then .ok .uploadConfigKubeadm
  else if r.phase = PhaseUploadConfigKubelet then .ok .uploadConfigKubelet
  else if r.phase = PhaseBootstrapToken then .ok .bootstrapToken
  else .error (fmtStringer r.phase ++ " is not a right kubeadm phase")

/-- Embedding of `KubeadmPhase.isStatusEqual`: on a status-lookup error return
true; otherwise compare the persisted fingerprint with the handle's stored
one.  The type assertion to `*KubeadmPhaseStatus` always succeeds because
every non-error branch of `GetStatus` returns one, so its false branch is
unreachable in this file. -/
def isStatusEqual (r : KubeadmPhase) (tcp : TenantControlPlane) : Bool :=
  match GetStatus r tcp with
  | .error _ => true
  | .ok p => (statusRead tcp p).checksum == r.checksum

/-- Embedding of `KubeadmPhase.ShouldStatusBeUpdated`. -/
def ShouldStatusBeUpdated (r : KubeadmPhase) (tcp : TenantControlPlane) : Bool :=
  !(isStatusEqual r tcp)

/-- Embedding of `KubeadmPhase.UpdateTenantControlPlaneStatus`, returning the
owning resource after the call together with the returned error; `none` stands
for a panic.  The logger construction evaluates `r.Phase.String()` directly
(no `fmt` recovery), so the call panics before the status lookup whenever the
phase value is outside 0..4.  Otherwise a lookup error is returned as is with
the resource untouched, and on success the checksum is written through the
returned pointer. -/
def UpdateTenantControlPlaneStatus (r : KubeadmPhase) (tcp : TenantControlPlane) :
    Option (TenantControlPlane × Option String) :=
  if 0 ≤ r.phase ∧ r.phase < 5 then
    match GetStatus r tcp with
    | .error e => some (tcp, some e)
    | .ok p =>
        some (statusWrite tcp p ((statusRead tcp p).SetChecksum r.checksum), none)
  else none

/-- Byte slices returned by the external apply routines. -/
def Bytes := List UInt8

/-- Embedding of `kubeadmapi.InitConfiguration` restricted to the field the
observed code touches. -/
structure InitConfiguration where
  bootstrapTokens : List BootstrapToken

/-- Embedding of `kubeadm.Configuration` restricted to the field the observed
code touches: `InitConfiguration.BootstrapTokens`. -/
structure Configuration where
  initConfiguration : InitConfiguration

/-- The apply-function shape the dispatcher returns, as the caller observes it:
given a client handle and a configuration, either panic (`none`) or return the
pair of the optional byte payload and the optional error. -/
def KubeadmFn (C : Type) :=
  C → Configuration → Option (Option Bytes × Option String)

/-- An external apply routine (`kubeadm.UploadKubeadmConfig`,
`kubeadm.UploadKubeletConfig`) lifted to the shape the dispatcher returns: an
external routine is assumed to return, never to panic. -/
def liftExternal (C : Type) (f : C → Configuration → Option Bytes × Option String) :
    KubeadmFn C :=
  fun c cfg => some (f c cfg)

/-- Embedding of `KubeadmPhase.GetKubeadmFunction`.  The three external
routines live outside the observed file and are parameters:
`uploadKubeadmConfig`, `uploadKubeletConfig` return a payload and error;
`bootstrapTokenFn` (`kubeadm.BootstrapToken`) returns only an error.  For the
bootstrap phase the returned closure first runs the token enrichment on the
configuration's embedded token list (mutating it in place, so the routine sees
the enriched list — or panics on an empty list), then returns a nil payload
and the routine's error. -/
def GetKubeadmFunction (C : Type)
    (uploadKubeadmConfig uploadKubeletConfig :
      C → Configuration → Option Bytes × Option String)
    (bootstrapTokenFn : C → Configuration → Option String)
    (rnd : Nat → String) (r : KubeadmPhase) :
    Option (KubeadmFn C) × Option String :=
  if r.phase = PhaseUploadConfigKubeadm then
    (some (liftExternal C uploadKubeadmConfig), none)
  else if r.phase = PhaseUploadConfigKubelet then
    (some (liftExternal C uploadKubeletConfig), none)
  else if r.phase = PhaseBootstrapToken then
    (some (fun c cfg =>
      match bootstrapTokensEnrichment rnd cfg.initConfiguration.bootstrapTokens with
      | none => none
      | some ts =>
          some (none,
            bootstrapTokenFn c { initConfiguration := { bootstrapTokens := ts } })),
      none)
  else
    (none, some ("no available functionality for phase " ++ fmtStringer r.phase))

/-- A concrete owning resource used to evaluate the definitions at concrete
inputs. -/
def tcp0 : TenantControlPlane :=
  { status := { kubeadmPhase :=
      { uploadConfigKubeadm := { checksum := "" },
        uploadConfigKubelet := { checksum := "" },
        bootstrapToken := { checksum := "" } } } }

/-- A trivial external upload routine used to evaluate the dispatcher at
concrete inputs. -/
def trivialUpload : Unit → Configuration → Option Bytes × Option String :=
  fun _ _ => (none, none)

/-- A trivial external token-issuance routine used to evaluate the dispatcher
at concrete inputs. -/
def trivialToken : Unit → Configuration → Option String :=
  fun _ _ => none

/-- Reading through a status pointer after writing through one: the written
record at the same pointer, the old record elsewhere. -/
theorem statusRead_statusWrite (tcp : TenantControlPlane) (p q : StatusPtr)
    (s : KubeadmPhaseStatus) :
    statusRead (statusWrite tcp p s) q = if q = p then s else statusRead tcp q := by
  cases p <;> cases q <;> simp [statusRead, statusWrite]

/-- A successful lookup makes the status write succeed, writing the checksum
through the returned pointer. -/
theorem updateStatus_ok_case (r : KubeadmPhase) (tcp : TenantControlPlane)
    (p : StatusPtr) (hin : 0 ≤ r.phase ∧ r.phase < 5)
    (hg : GetStatus r tcp = .ok p) :
    UpdateTenantControlPlaneStatus r tcp =
      some (statusWrite tcp p { checksum := r.checksum }, none) := by
  simp [UpdateTenantControlPlaneStatus, hin, hg, KubeadmPhaseStatus.SetChecksum]

/-- C2: whenever the status lookup fails, the drift check conservatively
reports no update needed instead of propagating the failure. -/
theorem shouldStatusBeUpdated_false_on_lookup_error
    (r : KubeadmPhase) (tcp : TenantControlPlane) (e : String)
    (h : GetStatus r tcp = .error e) :
    ShouldStatusBeUpdated r tcp = false := by
  simp [ShouldStatusBeUpdated, isStatusEqual, h]

/-- C2 witness: at phase value 3 the lookup fails and the drift check reports
false. -/
theorem shouldStatusBeUpdated_false_on_lookup_error_witness :
    ShouldStatusBeUpdated { name := "kubeadm-phase", phase := 3, checksum := "abc" }
      tcp0 = false :=
  shouldStatusBeUpdated_false_on_lookup_error _ tcp0 _ rfl

/-- C3 counterexample: at phase value 5 the status lookup fails, yet the phase
is reported as NOT needing a status write — the swallowed error does not
trigger a redundant status write, it skips one. -/
theorem statusLookupError_reports_unchanged_cex :
    (∃ e, GetStatus { name := "kubeadm-phase", phase := 5, checksum := "abc" } tcp0 =
      Except.error e) ∧
    ShouldStatusBeUpdated { name := "kubeadm-phase", phase := 5, checksum := "abc" }
      tcp0 = false :=
  ⟨⟨_, rfl⟩, rfl⟩

/-- C3 (amended): a status-lookup failure during drift checking is swallowed
with the consequence "treat as unchanged": for every phase value outside the
declared enumeration — the only values on which the lookup fails — the phase
is reported as not needing a status write. -/
theorem statusLookupError_skips_status_write
    (r : KubeadmPhase) (tcp : TenantControlPlane)
    (h0 : r.phase ≠ PhaseUploadConfigKubeadm)
    (h1 : r.phase ≠ PhaseUploadConfigKubelet)
    (h2 : r.phase ≠ PhaseBootstrapToken) :
    ShouldStatusBeUpdated r tcp = false := by
  simp [ShouldStatusBeUpdated, isStatusEqual, GetStatus, h0, h1, h2]

/-- C3 (amended) witness: at phase value 6 the status write is skipped. -/
theorem statusLookupError_skips_status_write_witness :
    ShouldStatusBeUpdated { name := "kubeadm-phase", phase := 6, checksum := "" }
      tcp0 = false :=
  statusLookupError_skips_status_write _ tcp0 (by decide) (by decide) (by decide)

/-- C4 counterexample: at phase value 5 — outside the declared enumeration —
the dispatcher returns an error, but its message carries the fmt panic
placeholder (the String method panicked on the five-entry table), not a name
of the identity; indeed no display name exists for value 5. -/
theorem unsupportedPhase_message_panic_cex :
    GetKubeadmFunction Unit trivialUpload trivialUpload trivialToken aaRand
      { name := "kubeadm-phase", phase := 5, checksum := "" } =
      (none, some ("no available functionality for phase " ++
        "%!s(PANIC=String method: runtime error: index out of range [5] with length 5)")) ∧
    kubeadmPhaseString 5 = none :=
  ⟨rfl, rfl⟩

/-- C4 (amended): resolving any phase value outside the declared enumeration
returns no apply function and the error "no available functionality for phase
X", where X is what Go fmt prints for the value: the display-table entry for
values 3 and 4 (for 4 that is "PhaseBootstrapToken", the display name that
collides with declared identity 2), and the recovered-panic placeholder for
every other value. -/
theorem getKubeadmFunction_unsupported
    (C : Type) (u1 u2 : C → Configuration → Option Bytes × Option String)
    (bt : C → Configuration → Option String) (rnd : Nat → String)
    (r : KubeadmPhase)
    (h0 : r.phase ≠ PhaseUploadConfigKubeadm)
    (h1 : r.phase ≠ PhaseUploadConfigKubelet)
    (h2 : r.phase ≠ PhaseBootstrapToken) :
    GetKubeadmFunction C u1 u2 bt rnd r =
      (none, some ("no available functionality for phase " ++ fmtStringer r.phase)) := by
  simp [GetKubeadmFunction, h0, h1, h2]

/-- C4 (amended) witness: at phase value 4 the dispatcher returns the error
naming the display-table entry "PhaseBootstrapToken" — the display name of
declared identity 2, not of 4 — and at phase value -1 it returns the error
carrying the negative-index panic placeholder, which has no length suffix. -/
theorem getKubeadmFunction_unsupported_witness :
    (GetKubeadmFunction Unit trivialUpload trivialUpload trivialToken aaRand
      { name := "kubeadm-phase", phase := 4, checksum := "" } =
      (none, some "no available functionality for phase PhaseBootstrapToken")) ∧
    (GetKubeadmFunction Unit trivialUpload trivialUpload trivialToken aaRand
      { name := "kubeadm-phase", phase := -1, checksum := "" } =
      (none, some ("no available functionality for phase " ++
        "%!s(PANIC=String method: runtime error: index out of range [-1])"))) :=
  ⟨(getKubeadmFunction_unsupported Unit trivialUpload trivialUpload trivialToken
      aaRand _ (by decide) (by decide) (by decide)).trans rfl,
    (getKubeadmFunction_unsupported Unit trivialUpload trivialUpload trivialToken
      aaRand _ (by decide) (by decide) (by decide)).trans rfl⟩

/-- C5: for every declared phase, after a successful status write the drift
check reports no update needed. -/
theorem updateStatus_then_no_update_needed
    (r : KubeadmPhase) (tcp : TenantControlPlane)
    (h : r.phase = PhaseUploadConfigKubeadm ∨ r.phase = PhaseUploadConfigKubelet ∨
      r.phase = PhaseBootstrapToken) :
    ∃ tcp2, UpdateTenantControlPlaneStatus r tcp = some (tcp2, none) ∧
      ShouldStatusBeUpdated r tcp2 = false := by
  have hin : 0 ≤ r.phase ∧ r.phase < 5 := by
    rcases h with h | h | h <;> simp [h, PhaseUploadConfigKubeadm,
      PhaseUploadConfigKubelet, PhaseBootstrapToken]
  have hg : ∃ p, GetStatus r tcp = .ok p := by
    rcases h with h | h | h
    · exact ⟨.uploadConfigKubeadm, by simp [GetStatus, h]⟩
    · exact ⟨.uploadConfigKubelet, by
        simp [GetStatus, h, PhaseUploadConfigKubeadm, PhaseUploadConfigKubelet]⟩
    · exact ⟨.bootstrapToken, by
        simp [GetStatus, h, PhaseUploadConfigKubeadm, PhaseUploadConfigKubelet,
          PhaseBootstrapToken]⟩
  obtain ⟨p, hp⟩ := hg
  refine ⟨_, updateStatus_ok_case r tcp p hin hp, ?_⟩
  have hp2 : GetStatus r (statusWrite tcp p { checksum := r.checksum }) = .ok p := hp
  simp [ShouldStatusBeUpdated, isStatusEqual, hp2, statusRead_statusWrite]

/-- C5 witness: writing the status for the bootstrap-token phase makes the
drift check report false. -/
theorem updateStatus_then_no_update_needed_witness :
    ∃ tcp2, UpdateTenantControlPlaneStatus
        { name := "kubeadm-phase", phase := 2, checksum := "abc" } tcp0 =
        some (tcp2, none) ∧
      ShouldStatusBeUpdated { name := "kubeadm-phase", phase := 2, checksum := "abc" }
        tcp2 = false :=
  updateStatus_then_no_update_needed _ tcp0 (Or.inr (Or.inr rfl))

/-- C8 counterexample: at phase value 7 the status lookup would fail, but the
status-write entry point panics — `r.Phase.String()` in the logger
construction indexes the five-entry table out of range — instead of returning
the lookup error. -/
theorem updateStatus_panics_cex :
    UpdateTenantControlPlaneStatus
      { name := "kubeadm-phase", phase := 7, checksum := "" } tcp0 = none ∧
    (∃ e, GetStatus { name := "kubeadm-phase", phase := 7, checksum := "" } tcp0 =
      Except.error e) :=
  ⟨rfl, ⟨_, rfl⟩⟩

/-- C8 (amended): for phase values 0..4 the status write either succeeds,
overwriting exactly the looked-up record's fingerprint with the handle's
stored checksum and leaving every other record unchanged, or returns the
lookup error with the owning resource entirely unchanged; for phase values
outside 0..4 the call panics in the logger construction before the lookup. -/
theorem updateStatus_spec (r : KubeadmPhase) (tcp : TenantControlPlane) :
    ((0 ≤ r.phase ∧ r.phase < 5) →
      (∃ p tcp2, GetStatus r tcp = .ok p ∧
        UpdateTenantControlPlaneStatus r tcp = some (tcp2, none) ∧
        statusRead tcp2 p = { checksum := r.checksum } ∧
        ∀ q, q ≠ p → statusRead tcp2 q = statusRead tcp q) ∨
      (∃ e, GetStatus r tcp = .error e ∧
        UpdateTenantControlPlaneStatus r tcp = some (tcp, some e))) ∧
    (¬(0 ≤ r.phase ∧ r.phase < 5) →
      UpdateTenantControlPlaneStatus r tcp = none) := by
  constructor
  · intro hin
    cases hg : GetStatus r tcp with
    | error e =>
        exact Or.inr ⟨e, rfl, by simp [UpdateTenantControlPlaneStatus, hin, hg]⟩
    | ok p =>
        refine Or.inl ⟨p, statusWrite tcp p { checksum := r.checksum }, rfl,
          updateStatus_ok_case r tcp p hin hg, ?_, ?_⟩
        · simp [statusRead_statusWrite]
        · intro q hq
          simp [statusRead_statusWrite, hq]
  · intro hout
    simp [UpdateTenantControlPlaneStatus, hout]

/-- C9: the dispatcher resolves the two upload phases to exactly the lifted
external upload routines, and resolves the bootstrap-token phase to a closure
that first runs the token enrichment on the configuration's embedded token
list and then calls the external token-issuance routine on the enriched
configuration, returning a nil byte payload and only that routine's error
whenever it returns (it panics exactly when the enrichment does). -/
theorem getKubeadmFunction_dispatch :
    ∀ (C : Type) (u1 u2 : C → Configuration → Option Bytes × Option String)
      (bt : C → Configuration → Option String) (rnd : Nat → String)
      (r : KubeadmPhase),
      (r.phase = PhaseUploadConfigKubeadm →
        GetKubeadmFunction C u1 u2 bt rnd r = (some (liftExternal C u1), none)) ∧
      (r.phase = PhaseUploadConfigKubelet →
        GetKubeadmFunction C u1 u2 bt rnd r = (some (liftExternal C u2), none)) ∧
      (r.phase = PhaseBootstrapToken →
        ∃ f, GetKubeadmFunction C u1 u2 bt rnd r = (some f, none) ∧
          ∀ c cfg, f c cfg =
            (bootstrapTokensEnrichment rnd cfg.initConfiguration.bootstrapTokens).map
              (fun ts =>
                (none, bt c { initConfiguration := { bootstrapTokens := ts } }))) := by
  intro C u1 u2 bt rnd r
  refine ⟨fun h => by simp [GetKubeadmFunction, h],
    fun h => by simp [GetKubeadmFunction, h, PhaseUploadConfigKubeadm,
      PhaseUploadConfigKubelet], fun h => ?_⟩
  refine ⟨fun c cfg =>
    match bootstrapTokensEnrichment rnd cfg.initConfiguration.bootstrapTokens with
    | none => none
    | some ts =>
        some (none, bt c { initConfiguration := { bootstrapTokens := ts } }),
    ?_, ?_⟩
  · simp [GetKubeadmFunction, h, PhaseUploadConfigKubeadm,
      PhaseUploadConfigKubelet, PhaseBootstrapToken]
  · intro c cfg
    cases h2 : bootstrapTokensEnrichment rnd cfg.initConfiguration.bootstrapTokens <;>
      simp [h2]

/-- C10: the display-name table has five entries while the enumeration
declares three values; the declared identity PhaseBootstrapToken (value 2)
displays as "PhaseAddonCoreDNS", and the String method is defined exactly on
the values 0 through 4 (it panics elsewhere). -/
theorem kubeadmPhase_display_table_mismatch :
    kubeadmPhaseNames.length = 5 ∧
    PhaseBootstrapToken = 2 ∧
    kubeadmPhaseString PhaseBootstrapToken = some "PhaseAddonCoreDNS" ∧
    "PhaseAddonCoreDNS" ≠ "PhaseBootstrapToken" ∧
    (∀ d : Int, (kubeadmPhaseString d).isSome = true ↔ 0 ≤ d ∧ d < 5) := by
  refine ⟨rfl, rfl, rfl, by decide, ?_⟩
  intro d
  by_cases h : 0 ≤ d ∧ d < 5 <;> simp [kubeadmPhaseString, h]

end Kamaji
